import Mathlib

set_option linter.unusedVariables false

/-!
Verification development for the Intimaia backend (TypeScript sources under
`src/server` and duplicated evolution snapshots under `src/unnamed`).

The subsystems modelled here, following the source files:
* `src/server/openai.ts` — AI Usage Governor: response cache keying
  (`cacheKey`), monthly budget ledger (`rolloverMonth`, `addUsage`,
  `getBudget`, `aiAllowed`), the quick-answer path (`askMini`,
  `fallbackAnswer`), both `analyzeConfession` variants, the heuristic
  analyzer (`generateHeuristicAnalysis`, `extractTags`,
  `estimateIntensity`) and the moderation wrapper (`moderateContent`).
* `src/server/db.ts` and `src/unnamed/part_005` — the two `runAs`
  variants (escaped interpolation vs. bound parameters).
* `src/server/storage.ts` — the scoped confession queries
  (`deleteConfession`, `getConfessionsByUserId`).

Strings are modelled as `List Char` (JS strings at code-point
granularity; the texts involved are BMP, where this coincides with the
UTF-16 view used by JS `.length`/`substring`).  JS numbers are modelled
as `ℚ` where fractional arithmetic matters and as `ℕ` for counts; the
float expressions in the source (`x * 1.5 + len / 200`, `len / 100 + …`)
are exact at the scales involved, so rational/natural arithmetic is a
faithful model.  External effects (the OpenAI completion and moderation
calls, JSON parsing, the database round trips) are passed in explicitly
as `Except`/`Option` outcomes, and module-global mutable state (cache,
budget ledger) is threaded as explicit state.
-/

namespace Intimaia

/-- JS strings, at code-point granularity. -/
abbrev Str := List Char

/-- The code points matched by the JS `\s` class / removed by
`String.prototype.trim` (space, tab, line terminators, NBSP, BOM and the
Unicode space separators). -/
def isSpaceCode (v : Nat) : Bool :=
  decide (v = 32 ∨ (9 ≤ v ∧ v ≤ 13) ∨ v = 0xA0 ∨ v = 0x1680 ∨
    (0x2000 ≤ v ∧ v ≤ 0x200A) ∨ v = 0x2028 ∨ v = 0x2029 ∨ v = 0x202F ∨
    v = 0x205F ∨ v = 0x3000 ∨ v = 0xFEFF)

/-- Whitespace test on characters (JS `trim` / `\s` semantics). -/
def isJsSpace (c : Char) : Bool := isSpaceCode c.toNat

/-- Simple lower-casing on code points: ASCII `A`–`Z` and the Latin-1
uppercase range `À`–`Þ` (minus `×`) map down by 32, everything else is
fixed.  This covers the French text the program handles and agrees with
JS `toLowerCase` there. -/
def lowerCode (v : Nat) : Nat :=
  if 65 ≤ v ∧ v ≤ 90 then v + 32
  else if 0xC0 ≤ v ∧ v ≤ 0xDE ∧ v ≠ 0xD7 then v + 32
  else v

/-- Character-level JS `toLowerCase`. -/
def jsToLower (c : Char) : Char := Char.ofNat (lowerCode c.toNat)

/-- String-level JS `toLowerCase`. -/
def lowerStr (s : Str) : Str := s.map jsToLower

/-- Leading-whitespace removal. -/
def trimLeft (s : Str) : Str := s.dropWhile isJsSpace

/-- Trailing-whitespace removal. -/
def trimRight (s : Str) : Str := (s.reverse.dropWhile isJsSpace).reverse

/-- JS `String.prototype.trim`. -/
def trim (s : Str) : Str := trimRight (trimLeft s)

/-- `openai.ts` line 17: `const norm = (s) => s.trim().toLowerCase()`. -/
def normJs (s : Str) : Str := lowerStr (trim s)

/-- `truncate(s, max)` (`openai.ts` lines 293–296): return `s` unchanged
when it fits, else the first `max - 3` characters plus `"..."`. -/
def truncate (s : Str) (max : Nat) : Str :=
  if s.length ≤ max then s else s.take (max - 3) ++ "...".data

/-- Number of non-overlapping, leftmost occurrences of `pat` in `s` —
the semantics of `s.match(new RegExp(pat, 'g')).length` for a literal
pattern (the emotion keywords contain no regex metacharacters). -/
def countOccur (pat : Str) : Str → Nat
  | [] => 0
  | c :: rest =>
    if List.isPrefixOf pat (c :: rest) then
      1 + countOccur pat (List.drop (pat.length - 1) rest)
    else countOccur pat rest
termination_by s => s.length
decreasing_by
  · simp only [List.length_drop, List.length_cons]; omega
  · simp only [List.length_cons]; omega

/-- JS `String.prototype.includes` (substring containment). -/
def strIncludes : Str → Str → Bool
  | [], pat => pat.isEmpty
  | c :: rest, pat => List.isPrefixOf pat (c :: rest) || strIncludes rest pat

theorem length_dropWhile_le (p : Char → Bool) (l : Str) :
    (l.dropWhile p).length ≤ l.length := by
  induction l with
  | nil => simp [List.dropWhile]
  | cons c rest ih =>
    by_cases h : p c
    · simp only [List.dropWhile, h, List.length_cons]; omega
    · simp [List.dropWhile, h]

/-- `t.replace(/\s+/g, " ")`: collapse every maximal whitespace run to a
single space. -/
def collapseWs : Str → Str
  | [] => []
  | c :: rest =>
    if isJsSpace c then ' ' :: collapseWs (rest.dropWhile isJsSpace)
    else c :: collapseWs rest
termination_by s => s.length
decreasing_by
  · have := length_dropWhile_le isJsSpace rest
    simp only [List.length_cons]; omega
  · simp only [List.length_cons]; omega

/-- JS `one.split(" ")` (split on the literal single-space separator). -/
def splitSp (s : Str) : List Str :=
  s.foldr
    (fun c acc =>
      match acc with
      | [] => [[c]]
      | w :: ws => if c = ' ' then [] :: w :: ws else (c :: w) :: ws)
    [[]]

/-- JS `parts.join(" ")`. -/
def joinSp (parts : List Str) : Str := List.intercalate [' '] parts

/-- `summarizeOneLine` (`openai.ts` lines 287–291): collapse whitespace,
trim, and keep the first 22 space-separated words. -/
def summarizeOneLine (t : Str) : Str :=
  let one := trim (collapseWs t)
  if one.isEmpty then [] else joinSp ((splitSp one).take 22)

/-! ### SHA-1 over UTF-8 bytes — `crypto.createHash("sha1").update(raw).digest("hex")` -/

/-- UTF-8 encoding of one code point (Node's default encoding for
`hash.update`). -/
def utf8Char (c : Char) : List Nat :=
  let v := c.toNat
  if v < 0x80 then [v]
  else if v < 0x800 then [0xC0 + v / 64, 0x80 + v % 64]
  else if v < 0x10000 then
    [0xE0 + v / 4096, 0x80 + v / 64 % 64, 0x80 + v % 64]
  else
    [0xF0 + v / 262144, 0x80 + v / 4096 % 64, 0x80 + v / 64 % 64,
     0x80 + v % 64]

/-- UTF-8 bytes of a string. -/
def utf8Bytes (s : Str) : List Nat := (s.map utf8Char).flatten

/-- `2^32`, the word modulus of SHA-1. -/
def M32 : Nat := 4294967296

/-- 32-bit left rotation. -/
def rotl (n x : Nat) : Nat := (x <<< n) % M32 ||| x >>> (32 - n)

/-- SHA-1 round constants. -/
def sha1K (i : Nat) : Nat :=
  if i < 20 then 0x5A827999
  else if i < 40 then 0x6ED9EBA1
  else if i < 60 then 0x8F1BBCDC
  else 0xCA62C1D6

/-- SHA-1 round functions. -/
def sha1F (i b c d : Nat) : Nat :=
  if i < 20 then b &&& c ||| (b ^^^ 0xFFFFFFFF) &&& d
  else if i < 40 then b ^^^ c ^^^ d
  else if i < 60 then b &&& c ||| b &&& d ||| c &&& d
  else b ^^^ c ^^^ d

/-- Merkle–Damgård padding: `0x80`, zeros to 56 mod 64, then the
message bit length as 8 big-endian bytes. -/
def sha1Pad (msg : List Nat) : List Nat :=
  let ml := msg.length * 8
  let k := (64 + 55 - msg.length % 64) % 64
  msg ++ 0x80 :: List.replicate k 0 ++
    [ml >>> 56 % 256, ml >>> 48 % 256, ml >>> 40 % 256, ml >>> 32 % 256,
     ml >>> 24 % 256, ml >>> 16 % 256, ml >>> 8 % 256, ml % 256]

/-- Big-endian 32-bit words from bytes. -/
def bytesToWords : List Nat → List Nat
  | b0 :: b1 :: b2 :: b3 :: rest =>
    (((b0 * 256 + b1) * 256 + b2) * 256 + b3) :: bytesToWords rest
  | _ => []

/-- Split a word list into 16-word blocks. -/
def chunk16 : List Nat → List (List Nat)
  | [] => []
  | w :: rest => List.take 16 (w :: rest) :: chunk16 (List.drop 15 rest)
termination_by l => l.length
decreasing_by
  simp only [List.length_drop, List.length_cons]; omega

/-- Message-schedule extension from 16 to 80 words. -/
def extendW (ws : List Nat) : Array Nat :=
  (List.range 64).foldl
    (fun a i =>
      a.push (rotl 1 (a.getD (i + 13) 0 ^^^ a.getD (i + 8) 0 ^^^
        a.getD (i + 2) 0 ^^^ a.getD i 0)))
    ws.toArray

/-- The five SHA-1 chaining words. -/
structure Sha1State where
  h0 : Nat
  h1 : Nat
  h2 : Nat
  h3 : Nat
  h4 : Nat

/-- SHA-1 initialisation vector. -/
def sha1Init : Sha1State :=
  ⟨0x67452301, 0xEFCDAB89, 0x98BADCFE, 0x10325476, 0xC3D2E1F0⟩

/-- One 512-bit compression step. -/
def sha1Block (st : Sha1State) (block : List Nat) : Sha1State :=
  let w := extendW block
  let r := (List.range 80).foldl
    (fun (t : Nat × Nat × Nat × Nat × Nat) i =>
      let (a, b, c, d, e) := t
      let tmp := (rotl 5 a + sha1F i b c d + e + sha1K i + w.getD i 0) % M32
      (tmp, a, rotl 30 b, c, d))
    (st.h0, st.h1, st.h2, st.h3, st.h4)
  let (a, b, c, d, e) := r
  ⟨(st.h0 + a) % M32, (st.h1 + b) % M32, (st.h2 + c) % M32,
   (st.h3 + d) % M32, (st.h4 + e) % M32⟩

/-- Big-endian bytes of a 32-bit word. -/
def wordBytes (w : Nat) : List Nat :=
  [w >>> 24 % 256, w >>> 16 % 256, w >>> 8 % 256, w % 256]

/-- Lower-case hex digit. -/
def hexDigit (n : Nat) : Char := "0123456789abcdef".data.getD n '0'

/-- Two hex digits of a byte. -/
def byteHex (b : Nat) : Str := [hexDigit (b / 16), hexDigit (b % 16)]

/-- `"sha1" … digest("hex")`: the 40-character lower-case hex digest of
the UTF-8 bytes of a string. -/
def sha1Hex (s : Str) : Str :=
  let st := (chunk16 (bytesToWords (sha1Pad (utf8Bytes s)))).foldl
    sha1Block sha1Init
  ((([st.h0, st.h1, st.h2, st.h3, st.h4].map wordBytes).flatten.map
    byteHex)).flatten

/-! ### Response-cache fingerprint — `cacheKey` (`openai.ts` lines 16–20) -/

/-- The string hashed by `cacheKey`:
`` `${userId}|${norm(input)}|${norm(extra ?? "")}` ``. -/
def rawKey (userId input : Str) (extra : Option Str) : Str :=
  userId ++ '|' :: (normJs input ++ '|' :: normJs (extra.getD []))

/-- `cacheKey(userId, input, extra?)`: SHA-1 hex digest of the
normalized triple. -/
def cacheKey (userId input : Str) (extra : Option Str) : Str :=
  sha1Hex (rawKey userId input extra)

/-! ### Budget ledger — `openai.ts` lines 22–46 -/

/-- `type Budget = { euros: number; month: string }`. -/
structure Budget where
  euros : ℚ
  month : Str
deriving DecidableEq

/-- The environment-derived constants `AI_PRICE_PER_1K` (default 0.15),
`AI_CAP_EUR` (default 20) and `AI_ALERT_EUR` (default 18). -/
structure AiConfig where
  pricePer1K : ℚ
  capEur : ℚ
  alertEur : ℚ

/-- The default configuration when the environment sets nothing. -/
def defaultAiConfig : AiConfig := ⟨3 / 20, 20, 18⟩

/-- `rolloverMonth()` (lines 29–32): adopt the derived current month and
reset spend to zero exactly when the stored period key differs.  The
derived key `new Date().toISOString().slice(0, 7)` is passed in as
`nowMonth`. -/
def rolloverMonth (nowMonth : Str) (b : Budget) : Budget :=
  if nowMonth ≠ b.month then ⟨0, nowMonth⟩ else b

/-- `addUsage(tokensIn, tokensOut)` (lines 33–38): roll over, then add
`(tokensIn + tokensOut) / 1000 * PRICE_PER_1K`; returns the new total. -/
def addUsage (cfg : AiConfig) (nowMonth : Str) (tokensIn tokensOut : Nat)
    (b : Budget) : Budget × ℚ :=
  let b1 := rolloverMonth nowMonth b
  let euros := ((tokensIn : ℚ) + (tokensOut : ℚ)) / 1000 * cfg.pricePer1K
  (⟨b1.euros + euros, b1.month⟩, b1.euros + euros)

/-- `getBudget()` (lines 39–42): roll over and report
`{ ...budget, cap, alert }`. -/
def getBudget (cfg : AiConfig) (nowMonth : Str) (b : Budget) :
    Budget × (ℚ × Str × ℚ × ℚ) :=
  let b1 := rolloverMonth nowMonth b
  (b1, (b1.euros, b1.month, cfg.capEur, cfg.alertEur))

/-- `aiAllowed()` (lines 43–46): roll over, then `euros < CAP_EUR`. -/
def aiAllowed (cfg : AiConfig) (nowMonth : Str) (b : Budget) :
    Budget × Bool :=
  let b1 := rolloverMonth nowMonth b
  (b1, decide (b1.euros < cfg.capEur))

/-! ### Response cache — the `lru-cache` instance `aiCache`

Modelled as an association list ordered by recency of insertion; the
capacity bound and TTL expiry of the library only remove entries and are
not load-bearing for the properties proved here. -/

/-- The cache contents. -/
abbrev Cache := List (Str × Str)

/-- `aiCache.get(k)`. -/
def cacheGet (c : Cache) (k : Str) : Option Str :=
  (c.find? (fun p => decide (p.1 = k))).map (fun p => p.2)

/-- `aiCache.set(k, v, …)`. -/
def cacheSet (k v : Str) (c : Cache) : Cache :=
  (k, v) :: c.filter (fun p => decide (p.1 ≠ k))

/-- The JS guard `if (cached) return cached`: an entry counts as a hit
only when present and non-empty (the empty string is falsy). -/
def cacheHit (c : Cache) (k : Str) : Option Str :=
  match cacheGet c k with
  | some v => if v.isEmpty then none else some v
  | none => none

/-! ### Degraded answers — `fallbackAnswer` / `summarizeOneLine` -/

/-- The reason tag `"budget" | "error" | "empty"`. -/
inductive FallbackReason where
  | budget
  | error
  | empty
deriving DecidableEq

/-- `fallbackAnswer(input, reason)` (`openai.ts` lines 278–285):
`` `${base} ${s ? "Idée clé : " + s : ""}`.trim() ``. -/
def fallbackAnswer (input : Str) (reason : FallbackReason) : Str :=
  let base :=
    if reason = FallbackReason.budget then
      "Mode éco activé : réponse courte sans IA.".data
    else "Réponse courte (hors-ligne).".data
  let s := summarizeOneLine input
  trim (base ++ ' ' :: (if s.isEmpty then [] else "Idée clé : ".data ++ s))

/-! ### The quick-answer path — `askMini` (`openai.ts` lines 58–101)

The OpenAI completion round trip is passed in as an `Except` outcome
(`.error` models a thrown/timed-out/aborted call); on success it carries
the optional message content and the provider-reported token usage.  The
module-global mutable cache and budget are threaded as `GovState`. -/

/-- Outcome data of `client.chat.completions.create`. -/
structure ProviderReply where
  text : Option Str
  promptTokens : Nat
  completionTokens : Nat

/-- The module-global mutable state of `openai.ts`: `aiCache` and
`budget`. -/
structure GovState where
  cache : Cache
  budget : Budget

/-- `SYSTEM_BASE`. -/
def SYSTEM_BASE : Str :=
  "Tu es l'assistant d'Intimaia. Réponds bref, clair, utile.".data

/-- `CONFESSION_SYSTEM`. -/
def CONFESSION_SYSTEM : Str :=
  "Tu analyses un texte intime et renvoies des conseils brefs, doux, concrets. 3 points max.".data

/-- `askMini` (lines 58–101): cache lookup, budget gate, provider call,
usage recording, cache write, empty-answer fallback.  Returns the
answer string and the updated global state. -/
def askMini (cfg : AiConfig) (nowMonth : Str) (userId input system : Str)
    (pr : Except Str ProviderReply) (st : GovState) : Str × GovState :=
  let k := cacheKey userId input (some system)
  match cacheHit st.cache k with
  | some cached => (cached, st)
  | none =>
    let al := aiAllowed cfg nowMonth st.budget
    if ¬ al.2 then
      (fallbackAnswer input FallbackReason.budget, ⟨st.cache, al.1⟩)
    else
      match pr with
      | Except.error _ =>
        (fallbackAnswer input FallbackReason.error, ⟨st.cache, al.1⟩)
      | Except.ok r =>
        let choice := (r.text.map trim).getD []
        let b2 := (addUsage cfg nowMonth r.promptTokens r.completionTokens al.1).1
        let cache2 := cacheSet k choice st.cache
        ((if choice.isEmpty then fallbackAnswer input FallbackReason.empty
          else choice),
         ⟨cache2, b2⟩)

/-- `askConfession` (lines 111–130): wraps `askMini` with the confession
prompt; the returned record's `data.advice` field is the answer (its
`budget` field re-reads `getBudget`, which also rolls the ledger over). -/
def askConfession (cfg : AiConfig) (nowMonth : Str) (userId text : Str)
    (pr : Except Str ProviderReply) (st : GovState) : Str × GovState :=
  let userPrompt :=
    "Analyse ce texte (max 3 bullet points concrets, style apaisant) :\n".data ++
      truncate text 800
  let r := askMini cfg nowMonth userId userPrompt CONFESSION_SYSTEM pr st
  (r.1, ⟨r.2.cache, (getBudget cfg nowMonth r.2.budget).1⟩)

/-! ### Heuristic analyzer — `generateHeuristicAnalysis`
(identical in both variants: `openai.ts` lines 195–251 and 456–512) -/

/-- Provenance marker `'ai' | 'heuristic'`. -/
inductive Source where
  | ai
  | heuristic
deriving DecidableEq

/-- The `AIAnalysis` record.  `intensity` is a JS number; the heuristic
path always produces an integer, the AI path clamps whatever number the
model returned. -/
structure AIAnalysis where
  summary : Str
  tags : List Str
  intensity : ℚ
  reply : Str
  source : Source

/-- The fixed `emotionKeywords` table, in object-literal order. -/
def emotionKeywords : List (Str × List Str) :=
  [("tristesse".data,
    ["triste".data, "déprim".data, "pleur".data, "chagrin".data,
     "mélancolie".data, "peine".data]),
   ("anxiété".data,
    ["anxie".data, "stress".data, "peur".data, "inquiet".data,
     "angoiss".data, "nerveu".data]),
   ("colère".data,
    ["colère".data, "énervé".data, "furieu".data, "rage".data,
     "frustré".data, "irrité".data]),
   ("joie".data,
    ["heureu".data, "joie".data, "content".data, "ravi".data,
     "euphori".data, "sourire".data]),
   ("espoir".data,
    ["espoir".data, "optimis".data, "confian".data, "positif".data,
     "avenir".data, "rêve".data]),
   ("solitude".data,
    ["seul".data, "isolé".data, "abandon".data, "solitaire".data]),
   ("amour".data,
    ["amour".data, "aime".data, "affection".data, "tendresse".data]),
   ("honte".data,
    ["honte".data, "gêne".data, "embarrass".data, "coupable".data])]

/-- `keywords.reduce((sum, k) => sum + matches(k), 0)`. -/
def keywordScore (words : Str) (keywords : List Str) : Nat :=
  (keywords.map (fun k => countOccur k words)).sum

/-- The detection loop: accumulates matched labels in table order and the
total keyword-hit count. -/
def detectEmotions (words : Str) :
    List (Str × List Str) → List Str × Nat
  | [] => ([], 0)
  | (emotion, keywords) :: rest =>
    let score := keywordScore words keywords
    let r := detectEmotions words rest
    if score > 0 then (emotion :: r.1, score + r.2) else r

/-- The four fixed reply templates. -/
def heuristicReplies : List Str :=
  ["Merci d'avoir partagé cela. Vos sentiments sont valides et importants.".data,
   "Je comprends que ce soit difficile. Prendre le temps d'écrire est déjà un pas vers le mieux-être.".data,
   "Vos émotions méritent d'être reconnues. Continuez à vous exprimer, cela fait partie du processus.".data,
   "C'est courageux de partager ces pensées. Vous n'êtes pas seul(e) dans ce ressenti.".data]

/-- `generateHeuristicAnalysis(content)`: keyword scan over the
lower-cased text, at most 4 tags (or the fallback tag `réflexion`),
intensity `min(10, max(1, floor(totalScore * 1.5 + length / 200)))`
(computed exactly as `(300·score + length) / 200` in integers), summary
truncated at 100 characters, and a reply template chosen by
`Math.random()` — modelled by the `rnd` index parameter. -/
def generateHeuristicAnalysis (content : Str) (rnd : Nat) : AIAnalysis :=
  let words := lowerStr content
  let len := content.length
  let det := detectEmotions words emotionKeywords
  let tags := if det.1.isEmpty then ["réflexion".data] else det.1.take 4
  let intensity : Nat := min 10 (max 1 ((300 * det.2 + len) / 200))
  let summary :=
    if 100 < content.length then content.take 97 ++ "...".data else content
  let reply := heuristicReplies.getD (rnd % heuristicReplies.length) []
  { summary := summary
    tags := tags
    intensity := (intensity : ℚ)
    reply := reply
    source := Source.heuristic }

/-- `extractTags(text)` (lines 253–269): substring presence over a
4-entry keyword table, at most 3 tags or the fallback tag. -/
def extractTags (text : Str) : List Str :=
  let words := lowerStr text
  let table : List (Str × List Str) :=
    [("tristesse".data, ["triste".data, "déprim".data, "pleur".data]),
     ("anxiété".data, ["anxie".data, "stress".data, "peur".data]),
     ("colère".data, ["colère".data, "énervé".data, "furieu".data]),
     ("joie".data, ["heureu".data, "joie".data, "content".data])]
  let tags := (table.filter
    (fun p => p.2.any (fun k => strIncludes words k))).map (fun p => p.1)
  if tags.isEmpty then ["réflexion".data] else tags.take 3

/-- `estimateIntensity(text)` (lines 271–276):
`min(10, max(1, floor(length / 100 + exclamations * 2 + questions)))`. -/
def estimateIntensity (text : Str) : Nat :=
  let len := text.length
  let exclamations := text.count '!'
  let questions := text.count '?'
  min 10 (max 1 (len / 100 + exclamations * 2 + questions))

/-- First-variant `analyzeConfession` (`openai.ts` lines 171–193): budget
gate, then `askConfession` advice with locally computed tags/intensity,
tagged `source: 'ai'`; the over-cap path degrades to the heuristic. -/
def analyzeConfessionV1 (cfg : AiConfig) (nowMonth : Str)
    (content userId : Str) (pr : Except Str ProviderReply) (rnd : Nat)
    (st : GovState) : AIAnalysis × GovState :=
  let al := aiAllowed cfg nowMonth st.budget
  if ¬ al.2 then
    (generateHeuristicAnalysis content rnd, ⟨st.cache, al.1⟩)
  else
    let r := askConfession cfg nowMonth userId content pr ⟨st.cache, al.1⟩
    ({ summary := truncate content 100
       tags := extractTags content
       intensity := (estimateIntensity content : ℚ)
       reply := r.1
       source := Source.ai },
     r.2)

/-! ### Moderation — `moderateContent`
(identical in both variants: `openai.ts` lines 137–161 and 354–378) -/

/-- The verdict record `{ flagged: boolean; reason?: string }`. -/
structure ModerationResult where
  flagged : Bool
  reason : Option Str
deriving DecidableEq

/-- The payload of a successful `openai.moderations.create` call:
the first result's `flagged` bit and its category map. -/
structure ModApiResult where
  flagged : Bool
  categories : List (Str × Bool)

/-- `moderateContent(content)`: on a flagged verdict, joins the flagged
category names into the reason; any thrown error (timeout, 5xx, …) is
caught and mapped to `{ flagged: false }` — the fail-open policy. -/
def moderateContent (call : Except Str ModApiResult) : ModerationResult :=
  match call with
  | Except.error _ => { flagged := false, reason := none }
  | Except.ok r =>
    if r.flagged then
      { flagged := true
        reason := some ("Content flagged for: ".data ++
          List.intercalate ", ".data
            ((r.categories.filter (fun p => p.2)).map (fun p => p.1))) }
    else { flagged := false, reason := none }

/-! ### Second-variant Governor — `analyzeConfession`
(`openai.ts` lines 380–454) -/

/-- The environment constants of the second variant: `FEATURE_AI`,
`AI_MONTHLY_HARDCAP_EUR` (default 20), `AI_SOFTCAP_WARN_EUR` (default
18), `FX_USD_EUR` (default 0.92). -/
structure AiConfigV2 where
  featureAI : Bool
  hardcapEur : ℚ
  softcapEur : ℚ
  fxUsdEur : ℚ

/-- The persisted `ai_usage` row consulted by the budget gate
(`storage.getAiUsageByMonth`); `estCostEur` is the stored decimal. -/
structure AiUsage where
  month : Str
  totalInputTokens : Nat
  totalOutputTokens : Nat
  estCostEur : ℚ

/-- The fields `JSON.parse` may yield for the model's JSON reply; absent
fields are `none` (the code guards each with `|| default`). -/
structure ParsedAnalysis where
  summary : Option Str
  tags : Option (List Str)
  intensity : Option ℚ
  reply : Option Str

/-- Outcome of the second variant's `try` block, up to and including the
usage write: either the completion call threw, or it returned optional
content whose JSON parse and subsequent `createOrUpdateAiUsage` write
each either succeeded or threw. -/
inductive CallOutcome where
  | failure (err : Str)
  | success (content : Option Str) (promptTokens completionTokens : Nat)
      (parsed : Except Str ParsedAnalysis) (usageWrite : Except Str Unit)

/-- JS `x || d` on an optional number: both an absent field and the
falsy value `0` fall back to the default. -/
def jsNumOr (x : Option ℚ) (d : ℚ) : ℚ :=
  match x with
  | none => d
  | some v => if v = 0 then d else v

/-- Second-variant `analyzeConfession(content, userId)` (lines 380–454):
feature flag, monthly hard-cap gate against the persisted usage row,
provider call with JSON reply, clamped result tagged `'ai'`; every
failure path degrades to `generateHeuristicAnalysis`.  `nowMonth` is the
derived `YYYY-MM` key and `rnd` the heuristic reply index. -/
def analyzeConfession (cfg : AiConfigV2) (nowMonth : Str)
    (content userId : Str) (usage : Option AiUsage) (call : CallOutcome)
    (rnd : Nat) : AIAnalysis :=
  if ¬ cfg.featureAI then generateHeuristicAnalysis content rnd
  else if (match usage with
           | some u => decide (cfg.hardcapEur ≤ u.estCostEur)
           | none => false) then
    generateHeuristicAnalysis content rnd
  else
    match call with
    | CallOutcome.failure _ => generateHeuristicAnalysis content rnd
    | CallOutcome.success text _ _ parsed usageWrite =>
      match text with
      | none => generateHeuristicAnalysis content rnd
      | some response =>
        if response.isEmpty then generateHeuristicAnalysis content rnd
        else
          match parsed with
          | Except.error _ => generateHeuristicAnalysis content rnd
          | Except.ok a =>
            match usageWrite with
            | Except.error _ => generateHeuristicAnalysis content rnd
            | Except.ok _ =>
              { summary := a.summary.getD []
                tags := (a.tags.getD []).take 4
                intensity := min 10 (max 0 (jsNumOr a.intensity 5))
                reply := a.reply.getD []
                source := Source.ai }

/-- The `/api/confess` handler fragment (`src/unnamed/part_003` lines
196–215): run moderation first; a flagged verdict rejects the request,
otherwise the content is analyzed. -/
def confessPipeline (modCall : Except Str ModApiResult)
    (cfg : AiConfigV2) (nowMonth : Str) (content userId : Str)
    (usage : Option AiUsage) (call : CallOutcome) (rnd : Nat) :
    Except ModerationResult AIAnalysis :=
  let m := moderateContent modCall
  if m.flagged then Except.error m
  else Except.ok (analyzeConfession cfg nowMonth content userId usage call rnd)

/-! ### Tenant-scoped storage — `runAs` (`src/server/db.ts` lines 8–26,
duplicated with bound parameters in `src/unnamed/part_005`) and the
confession queries of `src/server/storage.ts` (second variant). -/

/-- One `confessions` row (`shared/schema.ts` / `db-init.ts`). -/
structure ConfessionRow where
  id : Str
  userId : Str
  content : Str
  aiSummary : Option Str
  aiTags : Option (List Str)
  aiIntensity : Option Int
  aiReply : Option Str
  source : Str
  createdAt : Nat
deriving DecidableEq

/-- Persisted confession state. -/
abbrev Db := List ConfessionRow

/-- The `user` argument of `runAs`: `{ id: string; role?: string }`. -/
structure RunAsUser where
  id : Str
  role : Option Str

/-- The transaction-local context established by the two `SET LOCAL`
statements. -/
structure TxCtx where
  userId : Str
  role : Str
deriving DecidableEq

/-- The context value derivation `user.id` / `user.role || 'user'`. -/
def mkCtx (user : RunAsUser) : TxCtx :=
  ⟨user.id, user.role.getD "user".data⟩

/-- `runAs(user, fn)`: `BEGIN`, establish the caller context, run the
unit of work, `COMMIT` on success or `ROLLBACK` and rethrow on error
(`finally` releases the connection).  The unit of work receives the
transaction-local context and the persisted state; the returned pair is
the persisted state after the transaction and the committed result or
the re-raised error.  The transactional skeleton is identical in both
source variants. -/
def runAs {α : Type} (user : RunAsUser)
    (fn : TxCtx → Db → Except Str (Db × α)) (db : Db) :
    Db × Except Str α :=
  match fn (mkCtx user) db with
  | Except.ok r => (r.1, Except.ok r.2)
  | Except.error e => (db, Except.error e)

/-- A SQL statement as handed to `client.query`: its text and its bound
parameters. -/
structure SqlStmt where
  text : Str
  params : List Str
deriving DecidableEq

/-- The single-quote character. -/
def quoteChar : Char := Char.ofNat 39

/-- `user.id.replace(/'/g, "''")` — the quote-doubling escape applied in
`db.ts` before interpolation. -/
def sqlEscape (s : Str) : Str :=
  (s.map (fun c => if c = quoteChar then [quoteChar, quoteChar] else [c])).flatten

/-- `db.ts` line 15: `` `SET LOCAL app.user_id = '${user.id.replace(…)}'` `` —
the escaped caller id is spliced into the statement text; no parameters
are bound. -/
def setUserIdStmt (id : Str) : SqlStmt :=
  { text := "SET LOCAL app.user_id = ".data ++
      quoteChar :: (sqlEscape id ++ [quoteChar])
    params := [] }

/-- `db.ts` line 16: the same interpolation for `user.role || 'user'`. -/
def setRoleStmt (role : Option Str) : SqlStmt :=
  { text := "SET LOCAL app.role = ".data ++
      quoteChar :: (sqlEscape (role.getD "user".data) ++ [quoteChar])
    params := [] }

/-- `part_005` line 15: `client.query('SET LOCAL app.user_id = $1', [user.id])`
— constant text, value bound as a parameter. -/
def setUserIdStmtParam (id : Str) : SqlStmt :=
  { text := "SET LOCAL app.user_id = $1".data, params := [id] }

/-- `part_005` line 16: the parameterized role statement. -/
def setRoleStmtParam (role : Option Str) : SqlStmt :=
  { text := "SET LOCAL app.role = $1".data, params := [role.getD "user".data] }

/-- `storage.ts` lines 377–385 — `deleteConfession(id, userId, role)`:
inside `runAs`, `DELETE FROM confessions WHERE id = $1 AND user_id = $2
RETURNING *`; reports whether any row was deleted. -/
def deleteConfession (conId uid role : Str) (rows : Db) :
    Db × Except Str Bool :=
  runAs ⟨uid, some role⟩
    (fun _ctx db =>
      Except.ok
        (db.filter (fun r => ¬ (r.id = conId ∧ r.userId = uid)),
         decide ((db.filter (fun r => r.id = conId ∧ r.userId = uid)).length > 0)))
    rows

/-- `storage.ts` lines 344–365 — `getConfessionsByUserId(userId, role,
limit)`: inside `runAs`, `SELECT … WHERE user_id = $1 ORDER BY
created_at DESC LIMIT $2`. -/
def getConfessionsByUserId (uid role : Str) (lim : Nat) (rows : Db) :
    Db × Except Str (List ConfessionRow) :=
  runAs ⟨uid, some role⟩
    (fun _ctx db =>
      Except.ok
        (db,
         ((db.filter (fun r => r.userId = uid)).mergeSort
             (fun a b => decide (b.createdAt ≤ a.createdAt))).take lim))
    rows

/-! ## Verified properties -/

/-- Structural validity of an `AIAnalysis`: at most 4 tags, intensity in
the data model's `[0, 10]` bound, provenance marked `ai` or
`heuristic`. -/
def validAnalysis (a : AIAnalysis) : Prop :=
  a.tags.length ≤ 4 ∧ 0 ≤ a.intensity ∧ a.intensity ≤ 10 ∧
    (a.source = Source.ai ∨ a.source = Source.heuristic)

instance (a : AIAnalysis) : Decidable (validAnalysis a) := by
  unfold validAnalysis; infer_instance

theorem heuristic_tags_le (content : Str) (rnd : Nat) :
    (generateHeuristicAnalysis content rnd).tags.length ≤ 4 := by
  unfold generateHeuristicAnalysis
  dsimp only
  split
  · simp
  · exact List.length_take_le 4 _

theorem heuristic_intensity_mem (content : Str) (rnd : Nat) :
    1 ≤ (generateHeuristicAnalysis content rnd).intensity ∧
      (generateHeuristicAnalysis content rnd).intensity ≤ 10 := by
  unfold generateHeuristicAnalysis
  dsimp only
  constructor
  · exact_mod_cast le_min (by norm_num) (le_max_left 1 _)
  · exact_mod_cast min_le_left 10 _

theorem heuristic_valid (content : Str) (rnd : Nat) :
    validAnalysis (generateHeuristicAnalysis content rnd) :=
  ⟨heuristic_tags_le content rnd,
   le_trans (by norm_num) (heuristic_intensity_mem content rnd).1,
   (heuristic_intensity_mem content rnd).2,
   Or.inr rfl⟩

theorem extractTags_len (t : Str) : (extractTags t).length ≤ 4 := by
  unfold extractTags
  dsimp only
  split
  · simp
  · exact le_trans (List.length_take_le 3 _) (by norm_num)

theorem estimateIntensity_mem (t : Str) :
    1 ≤ estimateIntensity t ∧ estimateIntensity t ≤ 10 :=
  ⟨le_min (by norm_num) (le_max_left 1 _), min_le_left 10 _⟩

theorem analyzeConfession_valid (cfg : AiConfigV2) (nowMonth content userId : Str)
    (usage : Option AiUsage) (call : CallOutcome) (rnd : Nat) :
    validAnalysis (analyzeConfession cfg nowMonth content userId usage call rnd) := by
  unfold analyzeConfession
  split
  · exact heuristic_valid content rnd
  · split
    · exact heuristic_valid content rnd
    · cases call with
      | failure e => exact heuristic_valid content rnd
      | success text pin pout parsed uw =>
        cases text with
        | none => exact heuristic_valid content rnd
        | some response =>
          dsimp only
          split
          · exact heuristic_valid content rnd
          · cases parsed with
            | error e => exact heuristic_valid content rnd
            | ok a =>
              cases uw with
              | error e => exact heuristic_valid content rnd
              | ok u =>
                exact ⟨List.length_take_le 4 _,
                  le_min (by norm_num) (le_max_left 0 _),
                  min_le_left 10 _,
                  Or.inl rfl⟩

theorem analyzeConfessionV1_valid (cfg : AiConfig) (nowMonth content userId : Str)
    (pr : Except Str ProviderReply) (rnd : Nat) (st : GovState) :
    validAnalysis (analyzeConfessionV1 cfg nowMonth content userId pr rnd st).1 := by
  unfold analyzeConfessionV1
  dsimp only
  split
  · exact heuristic_valid content rnd
  · refine ⟨extractTags_len content, ?_, ?_, Or.inl rfl⟩
    · show (0 : ℚ) ≤ ((estimateIntensity content : ℕ) : ℚ)
      exact_mod_cast Nat.zero_le _
    · show ((estimateIntensity content : ℕ) : ℚ) ≤ 10
      exact_mod_cast (estimateIntensity_mem content).2

/-- C1: for every content string and caller id (and every provider /
budget / feature-flag / parse outcome), `analyzeConfession` returns an
`Analysis` with at most 4 tags, intensity within `[0, 10]`, and source
`ai` or `heuristic`; every terminal path — of the second (storage-gated)
variant and of the first (cache-and-ledger) variant alike — yields such
a usable result, so no error reaches the caller. -/
theorem analyze_always_valid :
    (∀ (cfg : AiConfigV2) (nowMonth content userId : Str)
        (usage : Option AiUsage) (call : CallOutcome) (rnd : Nat),
      validAnalysis (analyzeConfession cfg nowMonth content userId usage call rnd)) ∧
    (∀ (cfg : AiConfig) (nowMonth content userId : Str)
        (pr : Except Str ProviderReply) (rnd : Nat) (st : GovState),
      validAnalysis (analyzeConfessionV1 cfg nowMonth content userId pr rnd st).1) :=
  ⟨fun cfg nowMonth content userId usage call rnd =>
      analyzeConfession_valid cfg nowMonth content userId usage call rnd,
   fun cfg nowMonth content userId pr rnd st =>
      analyzeConfessionV1_valid cfg nowMonth content userId pr rnd st⟩

/-- C2: once the ledger's spend has reached the cap and while the period
key is unchanged, analysis always degrades to `source: heuristic` —
whatever the cache contents (the first variant's state is quantified
over every cache), and whatever the provider outcome; likewise the
second variant degrades whenever the persisted usage row has reached the
hard cap. -/
theorem overcap_always_heuristic (cfg : AiConfig) (cfg2 : AiConfigV2)
    (nowMonth content userId : Str) (pr : Except Str ProviderReply)
    (usage : Option AiUsage) (call : CallOutcome) (rnd : Nat) (st : GovState) :
    (nowMonth = st.budget.month → cfg.capEur ≤ st.budget.euros →
      (analyzeConfessionV1 cfg nowMonth content userId pr rnd st).1.source =
        Source.heuristic) ∧
    (∀ u, usage = some u → cfg2.hardcapEur ≤ u.estCostEur →
      (analyzeConfession cfg2 nowMonth content userId usage call rnd).source =
        Source.heuristic) := by
  constructor
  · intro hm hcap
    unfold analyzeConfessionV1 aiAllowed rolloverMonth
    simp only [hm, ne_eq, not_true_eq_false, if_false, ite_false]
    rw [if_pos]
    · rfl
    · simp [hm, not_lt.mpr hcap]
  · intro u hu hcap
    subst hu
    unfold analyzeConfession
    by_cases hf : cfg2.featureAI
    · rw [if_neg (by simp [hf]), if_pos (by simp [hcap])]
      rfl
    · rw [if_pos (by simp [hf])]
      rfl

/-- C2 witness: with the ledger at €22 of a €20 cap in the current
month and a non-empty cache, the first variant degrades to heuristic;
with a persisted usage row at €25 of a €20 hard cap, so does the
second. -/
theorem overcap_always_heuristic_witness :
    (analyzeConfessionV1 defaultAiConfig "2025-09".data "je suis triste".data
      "u1".data (Except.error "down".data) 0
      ⟨[("k".data, "v".data)], ⟨22, "2025-09".data⟩⟩).1.source =
        Source.heuristic ∧
    (analyzeConfession ⟨true, 20, 18, 1⟩ "2025-09".data "je suis triste".data
      "u1".data (some ⟨"2025-09".data, 10, 10, 25⟩)
      (CallOutcome.failure "down".data) 0).source = Source.heuristic :=
  ⟨(overcap_always_heuristic defaultAiConfig ⟨true, 20, 18, 1⟩ "2025-09".data
      "je suis triste".data "u1".data (Except.error "down".data)
      (some ⟨"2025-09".data, 10, 10, 25⟩) (CallOutcome.failure "down".data) 0
      ⟨[("k".data, "v".data)], ⟨22, "2025-09".data⟩⟩).1 (by decide) (by decide),
   (overcap_always_heuristic defaultAiConfig ⟨true, 20, 18, 1⟩ "2025-09".data
      "je suis triste".data "u1".data (Except.error "down".data)
      (some ⟨"2025-09".data, 10, 10, 25⟩) (CallOutcome.failure "down".data) 0
      ⟨[("k".data, "v".data)], ⟨22, "2025-09".data⟩⟩).2
      ⟨"2025-09".data, 10, 10, 25⟩ rfl (by decide)⟩

/-- C3: a moderation-classifier failure is mapped to a non-flagged
verdict (fail-open), and the `/api/confess` pipeline then still produces
a valid `Analysis` — the classifier's error is not propagated. -/
theorem moderation_fail_open (e : Str) (cfg2 : AiConfigV2)
    (nowMonth content userId : Str) (usage : Option AiUsage)
    (call : CallOutcome) (rnd : Nat) :
    moderateContent (Except.error e) = { flagged := false, reason := none } ∧
    confessPipeline (Except.error e) cfg2 nowMonth content userId usage call rnd =
      Except.ok (analyzeConfession cfg2 nowMonth content userId usage call rnd) ∧
    validAnalysis (analyzeConfession cfg2 nowMonth content userId usage call rnd) :=
  ⟨rfl, rfl, analyzeConfession_valid cfg2 nowMonth content userId usage call rnd⟩

/-- C4: within one period key every ledger operation preserves the
spend invariant — `addUsage` only adds a non-negative amount and keeps
the key, `getBudget`/`aiAllowed` leave the record untouched — and a
reset happens exactly on a period-key change, after which the spend is 0
and `allowed()` is true again, for every prior record (including one
above cap). -/
theorem budget_ledger_invariant (cfg : AiConfig) (nowMonth : Str)
    (tokensIn tokensOut : Nat) (b : Budget)
    (hprice : 0 ≤ cfg.pricePer1K) (hcap : 0 < cfg.capEur) :
    (nowMonth = b.month →
      (addUsage cfg nowMonth tokensIn tokensOut b).1.month = b.month ∧
      b.euros ≤ (addUsage cfg nowMonth tokensIn tokensOut b).1.euros ∧
      (getBudget cfg nowMonth b).1 = b ∧
      (aiAllowed cfg nowMonth b).1 = b) ∧
    (nowMonth ≠ b.month →
      (rolloverMonth nowMonth b).euros = 0 ∧
      (rolloverMonth nowMonth b).month = nowMonth ∧
      (getBudget cfg nowMonth b).1.euros = 0 ∧
      (aiAllowed cfg nowMonth b).1.euros = 0 ∧
      (aiAllowed cfg nowMonth b).2 = true ∧
      (addUsage cfg nowMonth tokensIn tokensOut b).1.euros =
        ((tokensIn : ℚ) + (tokensOut : ℚ)) / 1000 * cfg.pricePer1K) := by
  have hδ : 0 ≤ ((tokensIn : ℚ) + (tokensOut : ℚ)) / 1000 * cfg.pricePer1K :=
    mul_nonneg (div_nonneg (by positivity) (by norm_num)) hprice
  constructor
  · intro hm
    have hroll : rolloverMonth nowMonth b = b := by
      unfold rolloverMonth
      simp [hm]
    refine ⟨?_, ?_, ?_, ?_⟩
    · unfold addUsage
      rw [hroll]
    · unfold addUsage
      rw [hroll]
      dsimp only
      linarith
    · unfold getBudget
      rw [hroll]
    · unfold aiAllowed
      rw [hroll]
  · intro hm
    have hroll : rolloverMonth nowMonth b = ⟨0, nowMonth⟩ := by
      unfold rolloverMonth
      simp [hm]
    refine ⟨?_, ?_, ?_, ?_, ?_, ?_⟩
    · rw [hroll]
    · rw [hroll]
    · unfold getBudget
      rw [hroll]
    · unfold aiAllowed
      rw [hroll]
    · unfold aiAllowed
      rw [hroll]
      simpa using hcap
    · unfold addUsage
      rw [hroll]
      dsimp only
      ring

/-- C4 witness: rolling from September (spent €25, above the €20 cap)
into October resets the spend to 0, re-enables `allowed()`, and
`addUsage` then accounts exactly the new charge. -/
theorem budget_ledger_invariant_witness :
    (rolloverMonth "2025-10".data ⟨25, "2025-09".data⟩).euros = 0 ∧
    (rolloverMonth "2025-10".data ⟨25, "2025-09".data⟩).month =
      "2025-10".data ∧
    (getBudget defaultAiConfig "2025-10".data ⟨25, "2025-09".data⟩).1.euros = 0 ∧
    (aiAllowed defaultAiConfig "2025-10".data ⟨25, "2025-09".data⟩).1.euros = 0 ∧
    (aiAllowed defaultAiConfig "2025-10".data ⟨25, "2025-09".data⟩).2 = true ∧
    (addUsage defaultAiConfig "2025-10".data 1000 500 ⟨25, "2025-09".data⟩).1.euros =
      ((1000 : ℚ) + (500 : ℚ)) / 1000 * defaultAiConfig.pricePer1K :=
  (budget_ledger_invariant defaultAiConfig "2025-10".data 1000 500
    ⟨25, "2025-09".data⟩ (div_nonneg (by decide) (by decide)) (by decide)).2
    (by decide)

/-- C5: user-scoped access touches only the caller's rows.  If every
row carrying the targeted id belongs to owner `a`, then
`deleteConfession` called by a different user `b` deletes nothing and
reports not-found (`false`), and `getConfessionsByUserId` for `b`
returns only rows owned by `b` — never one of `a`'s. -/
theorem scoped_access_owner_only (conId a b role : Str) (lim : Nat)
    (rows : Db)
    (hOwner : ∀ r ∈ rows, r.id = conId → r.userId = a)
    (hab : b ≠ a) :
    deleteConfession conId b role rows = (rows, Except.ok false) ∧
    (∀ l, (getConfessionsByUserId b role lim rows).2 = Except.ok l →
      ∀ r ∈ l, r.userId = b ∧ r.userId ≠ a) := by
  have hnone : ∀ r ∈ rows, ¬ (r.id = conId ∧ r.userId = b) := by
    intro r hr ⟨hid, huid⟩
    exact hab (huid ▸ hOwner r hr hid)
  constructor
  · unfold deleteConfession runAs
    dsimp only
    have h1 : rows.filter (fun r => ¬ (r.id = conId ∧ r.userId = b)) = rows :=
      List.filter_eq_self.mpr (fun r hr => by
        simpa only [decide_eq_true_eq] using hnone r hr)
    have h2 : rows.filter (fun r => r.id = conId ∧ r.userId = b) = [] :=
      List.filter_eq_nil_iff.mpr (fun r hr => by
        simpa only [decide_eq_true_eq] using hnone r hr)
    rw [h1, h2]
    rfl
  · intro l hl r hr
    unfold getConfessionsByUserId runAs at hl
    dsimp only at hl
    injection hl with hl
    subst hl
    have hmem : r ∈ (rows.filter (fun x => decide (x.userId = b))).mergeSort
        (fun x y => decide (y.createdAt ≤ x.createdAt)) :=
      List.take_subset lim _ hr
    rw [List.mem_mergeSort] at hmem
    have := (List.mem_filter.mp hmem).2
    have hub : r.userId = b := by simpa using this
    exact ⟨hub, fun hra => hab (by rw [← hub, hra])⟩

/-- C5 witness: a store holding one confession of Alice; Bob's scoped
delete leaves it untouched and reports not-found, and Bob's listing
contains no row of Alice's. -/
theorem scoped_access_owner_only_witness :
    (deleteConfession "c1".data "bob".data "user".data
      [⟨"c1".data, "alice".data, "secret".data, none, none, none, none,
        "user".data, 0⟩] =
      ([⟨"c1".data, "alice".data, "secret".data, none, none, none, none,
        "user".data, 0⟩], Except.ok false)) ∧
    (∀ l, (getConfessionsByUserId "bob".data "user".data 100
        [⟨"c1".data, "alice".data, "secret".data, none, none, none, none,
          "user".data, 0⟩]).2 = Except.ok l →
      ∀ r ∈ l, r.userId = "bob".data ∧ r.userId ≠ "alice".data) :=
  scoped_access_owner_only "c1".data "alice".data "bob".data "user".data 100
    [⟨"c1".data, "alice".data, "secret".data, none, none, none, none,
      "user".data, 0⟩]
    (by decide) (by decide)

/-- C6: `runAs` establishes exactly the caller's id and defaulted role
as the transaction context handed to the unit of work, commits the
worked state exactly when the unit of work succeeds, and on error leaves
the persisted state unchanged while re-raising the same error. -/
theorem runAs_transactional {α : Type} (user : RunAsUser)
    (fn : TxCtx → Db → Except Str (Db × α)) (db : Db) :
    (mkCtx user).userId = user.id ∧
    (mkCtx user).role = user.role.getD "user".data ∧
    (∀ db2 a, fn (mkCtx user) db = Except.ok (db2, a) →
      runAs user fn db = (db2, Except.ok a)) ∧
    (∀ e, fn (mkCtx user) db = Except.error e →
      runAs user fn db = (db, Except.error e)) := by
  refine ⟨rfl, rfl, ?_, ?_⟩
  · intro db2 a h
    unfold runAs
    rw [h]
  · intro e h
    unfold runAs
    rw [h]

/-- C6 witness: a unit of work that succeeds commits its state and
result; one that throws leaves the store unchanged and re-raises the
same error. -/
theorem runAs_transactional_witness :
    runAs ⟨"alice".data, some "user".data⟩
      (fun _ db => Except.ok (db, (42 : Nat))) [] = ([], Except.ok 42) ∧
    runAs ⟨"alice".data, none⟩
      (fun _ _ => (Except.error "boom".data : Except Str (Db × Nat))) [] =
      ([], Except.error "boom".data) :=
  ⟨(runAs_transactional ⟨"alice".data, some "user".data⟩
      (fun _ db => Except.ok (db, (42 : Nat))) []).2.2.1 [] 42 rfl,
   (runAs_transactional ⟨"alice".data, none⟩
      (fun _ _ => (Except.error "boom".data : Except Str (Db × Nat))) []).2.2.2
      "boom".data rfl⟩

/-- C7 counterexample: in the live `db.ts` variant the `SET LOCAL`
statement text is not a constant — it differs between caller ids
`alice` and `bob` — and no parameter is bound, refuting the claim that
the values are passed as bound parameters with fixed statement text. -/
theorem setLocal_interpolates_caller :
    (setUserIdStmt "alice".data).text ≠ (setUserIdStmt "bob".data).text ∧
    (setUserIdStmt "alice".data).params = [] ∧
    (setRoleStmt (some "admin".data)).params = [] := by
  refine ⟨by decide, rfl, rfl⟩

/-- C7 amended: only the parameterized `runAs` variant (`part_005`)
passes the caller id and role as bound parameters with constant
statement text; the `db.ts` variant splices the quote-escaped values
into the statement text, which therefore varies with the
caller-supplied values. -/
theorem setLocal_stmt_shapes (id1 id2 id : Str) (role : Option Str) :
    (setUserIdStmtParam id1).text = (setUserIdStmtParam id2).text ∧
    (setUserIdStmtParam id).params = [id] ∧
    (setRoleStmtParam (some id1)).text = (setRoleStmtParam (some id2)).text ∧
    (setRoleStmtParam role).params = [role.getD "user".data] ∧
    (setUserIdStmt id).text =
      "SET LOCAL app.user_id = ".data ++
        quoteChar :: (sqlEscape id ++ [quoteChar]) ∧
    (setUserIdStmt id).params = [] ∧
    (∃ u v : Str, (setUserIdStmt u).text ≠ (setUserIdStmt v).text) :=
  ⟨rfl, rfl, rfl, rfl, rfl, rfl,
   ⟨"a".data, "b".data, by decide⟩⟩

theorem trim_cons_ne_nil (c : Char) (l : Str) (h : isJsSpace c = false) :
    trim (c :: l) ≠ [] := by
  unfold trim trimLeft trimRight
  rw [List.dropWhile_cons_of_neg (by simp [h])]
  intro hnil
  rw [List.reverse_eq_nil_iff, List.dropWhile_eq_nil_iff] at hnil
  have hc := hnil c (by simp)
  rw [h] at hc
  exact Bool.false_ne_true hc

theorem fallbackAnswer_ne_nil (input : Str) (r : FallbackReason) :
    fallbackAnswer input r ≠ [] := by
  unfold fallbackAnswer
  cases r
  · exact trim_cons_ne_nil _ _ (by decide)
  · exact trim_cons_ne_nil _ _ (by decide)
  · exact trim_cons_ne_nil _ _ (by decide)

theorem cacheGet_filterOut (c : Cache) (k : Str) :
    cacheGet (c.filter (fun p => p.1 ≠ k)) k = none := by
  unfold cacheGet
  have hfind : (c.filter (fun p => p.1 ≠ k)).find?
      (fun p => decide (p.1 = k)) = none := by
    rw [List.find?_eq_none]
    intro p hp
    have h2 := (List.mem_filter.mp hp).2
    simp only [decide_eq_true_eq] at h2 ⊢
    exact h2
  rw [hfind]
  rfl

theorem cacheHit_nonempty {c : Cache} {k v : Str}
    (h : cacheHit c k = some v) : v ≠ [] := by
  unfold cacheHit at h
  cases hget : cacheGet c k with
  | none => rw [hget] at h; exact absurd h (by simp)
  | some w =>
    rw [hget] at h
    dsimp only at h
    by_cases hw : w.isEmpty
    · rw [if_pos hw] at h; exact absurd h (by simp)
    · rw [if_neg hw] at h
      injection h with h
      subst h
      simpa [List.isEmpty_iff] using hw

/-- C8: `askMini` writes to the response cache only on the path where
the provider call returned successfully; on the over-budget path and on
the provider-error path the fallback answer is returned with the cache
untouched, so the degraded result is never frozen for later retries of
the same fingerprint. -/
theorem askMini_cache_write_discipline (cfg : AiConfig)
    (nowMonth userId input system : Str) (pr : Except Str ProviderReply)
    (st : GovState) :
    ((askMini cfg nowMonth userId input system pr st).2.cache ≠ st.cache →
      ∃ r, pr = Except.ok r ∧
        (askMini cfg nowMonth userId input system pr st).2.cache =
          cacheSet (cacheKey userId input (some system))
            ((r.text.map trim).getD []) st.cache) ∧
    (cacheHit st.cache (cacheKey userId input (some system)) = none →
      (aiAllowed cfg nowMonth st.budget).2 = false →
      askMini cfg nowMonth userId input system pr st =
        (fallbackAnswer input FallbackReason.budget,
         ⟨st.cache, (aiAllowed cfg nowMonth st.budget).1⟩)) ∧
    (∀ err, cacheHit st.cache (cacheKey userId input (some system)) = none →
      (aiAllowed cfg nowMonth st.budget).2 = true →
      pr = Except.error err →
      askMini cfg nowMonth userId input system pr st =
        (fallbackAnswer input FallbackReason.error,
         ⟨st.cache, (aiAllowed cfg nowMonth st.budget).1⟩)) := by
  refine ⟨?_, ?_, ?_⟩
  · intro hne
    unfold askMini at hne ⊢
    dsimp only at hne ⊢
    cases hhit : cacheHit st.cache (cacheKey userId input (some system)) with
    | some v =>
      rw [hhit] at hne
      exact absurd rfl hne
    | none =>
      rw [hhit] at hne
      dsimp only at hne ⊢
      by_cases hal : (aiAllowed cfg nowMonth st.budget).2
      · rw [if_neg (by simp [hal])] at hne ⊢
        cases pr with
        | error e => exact absurd rfl hne
        | ok r => exact ⟨r, rfl, rfl⟩
      · rw [if_pos (by simp [hal])] at hne
        exact absurd rfl hne
  · intro hhit hal
    unfold askMini
    dsimp only
    rw [hhit]
    dsimp only
    rw [if_pos (by simp [hal])]
  · intro err hhit hal hpr
    subst hpr
    unfold askMini
    dsimp only
    rw [hhit]
    dsimp only
    rw [if_neg (by simp [hal])]

/-- C8 witness: a miss with the ledger over cap returns the budget
fallback with the cache untouched; a miss with a provider error returns
the offline fallback with the cache untouched; and a successful call on
an empty cache is the only way the cache changes. -/
theorem askMini_cache_write_discipline_witness :
    askMini defaultAiConfig "2025-09".data "u1".data "bonjour".data
      SYSTEM_BASE (Except.ok ⟨some "salut".data, 5, 5⟩)
      ⟨[], ⟨25, "2025-09".data⟩⟩ =
      (fallbackAnswer "bonjour".data FallbackReason.budget,
       ⟨[], ⟨25, "2025-09".data⟩⟩) ∧
    askMini defaultAiConfig "2025-09".data "u1".data "bonjour".data
      SYSTEM_BASE (Except.error "down".data) ⟨[], ⟨0, "2025-09".data⟩⟩ =
      (fallbackAnswer "bonjour".data FallbackReason.error,
       ⟨[], ⟨0, "2025-09".data⟩⟩) ∧
    ∃ r, (Except.ok (⟨some "salut".data, 5, 5⟩ : ProviderReply) :
            Except Str ProviderReply) = Except.ok r ∧
      (askMini defaultAiConfig "2025-09".data "u1".data "bonjour".data
        SYSTEM_BASE (Except.ok ⟨some "salut".data, 5, 5⟩)
        ⟨[], ⟨0, "2025-09".data⟩⟩).2.cache =
        cacheSet (cacheKey "u1".data "bonjour".data (some SYSTEM_BASE))
          ((r.text.map trim).getD []) [] :=
  ⟨(askMini_cache_write_discipline defaultAiConfig "2025-09".data "u1".data
      "bonjour".data SYSTEM_BASE (Except.ok ⟨some "salut".data, 5, 5⟩)
      ⟨[], ⟨25, "2025-09".data⟩⟩).2.1 rfl (by decide),
   (askMini_cache_write_discipline defaultAiConfig "2025-09".data "u1".data
      "bonjour".data SYSTEM_BASE (Except.error "down".data)
      ⟨[], ⟨0, "2025-09".data⟩⟩).2.2 "down".data rfl (by decide) rfl,
   (askMini_cache_write_discipline defaultAiConfig "2025-09".data "u1".data
      "bonjour".data SYSTEM_BASE (Except.ok ⟨some "salut".data, 5, 5⟩)
      ⟨[], ⟨0, "2025-09".data⟩⟩).1 (by decide)⟩

/-- C10: `askMini` always resolves to a non-empty answer: a cache hit is
served only when the stored value is non-empty, an empty cached entry
behaves exactly as a miss, and the over-budget, provider-error and
empty-response paths all return a (non-empty) fallback answer. -/
theorem askMini_nonempty (cfg : AiConfig) (nowMonth userId input system : Str)
    (pr : Except Str ProviderReply) (st : GovState) :
    (askMini cfg nowMonth userId input system pr st).1 ≠ [] ∧
    (∀ v, cacheGet st.cache (cacheKey userId input (some system)) = some v →
      v ≠ [] → (askMini cfg nowMonth userId input system pr st).1 = v) ∧
    (cacheGet st.cache (cacheKey userId input (some system)) = some [] →
      (askMini cfg nowMonth userId input system pr st).1 =
        (askMini cfg nowMonth userId input system pr
          ⟨st.cache.filter
              (fun p => p.1 ≠ cacheKey userId input (some system)),
            st.budget⟩).1) := by
  refine ⟨?_, ?_, ?_⟩
  · unfold askMini
    dsimp only
    cases hhit : cacheHit st.cache (cacheKey userId input (some system)) with
    | some v =>
      exact cacheHit_nonempty hhit
    | none =>
      dsimp only
      by_cases hal : (aiAllowed cfg nowMonth st.budget).2
      · rw [if_neg (by simp [hal])]
        cases pr with
        | error e => exact fallbackAnswer_ne_nil input FallbackReason.error
        | ok r =>
          dsimp only
          by_cases hch : ((r.text.map trim).getD []).isEmpty
          · rw [if_pos hch]
            exact fallbackAnswer_ne_nil input FallbackReason.empty
          · rw [if_neg hch]
            simpa [List.isEmpty_iff] using hch
      · rw [if_pos (by simp [hal])]
        exact fallbackAnswer_ne_nil input FallbackReason.budget
  · intro v hget hv
    have hhit : cacheHit st.cache (cacheKey userId input (some system)) = some v := by
      unfold cacheHit
      rw [hget]
      dsimp only
      rw [if_neg (by simpa [List.isEmpty_iff] using hv)]
    unfold askMini
    dsimp only
    rw [hhit]
  · intro hget
    have hhit1 : cacheHit st.cache (cacheKey userId input (some system)) = none := by
      unfold cacheHit
      rw [hget]
      rfl
    have hhit2 : cacheHit
        (st.cache.filter (fun p => p.1 ≠ cacheKey userId input (some system)))
        (cacheKey userId input (some system)) = none := by
      unfold cacheHit
      rw [cacheGet_filterOut]
    unfold askMini
    dsimp only
    rw [hhit1, hhit2]
    dsimp only
    by_cases hal : (aiAllowed cfg nowMonth st.budget).2
    · rw [if_neg (by simp [hal]), if_neg (by simp [hal])]
      cases pr with
      | error e => rfl
      | ok r => rfl
    · rw [if_pos (by simp [hal]), if_pos (by simp [hal])]

/-- C10 witness: a provider success whose trimmed content is empty
still yields a non-empty (fallback) answer; a non-empty cached value is
served as-is; and with an empty string cached under the fingerprint the
call behaves as a miss. -/
theorem askMini_nonempty_witness :
    (askMini defaultAiConfig "2025-09".data "u1".data "bonjour".data
      SYSTEM_BASE (Except.ok ⟨some "  ".data, 5, 5⟩)
      ⟨[], ⟨0, "2025-09".data⟩⟩).1 ≠ [] ∧
    (askMini defaultAiConfig "2025-09".data "u1".data "bonjour".data
      SYSTEM_BASE (Except.error "down".data)
      ⟨[(cacheKey "u1".data "bonjour".data (some SYSTEM_BASE), "salut".data)],
        ⟨0, "2025-09".data⟩⟩).1 = "salut".data ∧
    (askMini defaultAiConfig "2025-09".data "u1".data "bonjour".data
      SYSTEM_BASE (Except.error "down".data)
      ⟨[(cacheKey "u1".data "bonjour".data (some SYSTEM_BASE), [])],
        ⟨0, "2025-09".data⟩⟩).1 =
      (askMini defaultAiConfig "2025-09".data "u1".data "bonjour".data
        SYSTEM_BASE (Except.error "down".data)
        ⟨[(cacheKey "u1".data "bonjour".data (some SYSTEM_BASE), [])].filter
            (fun p => p.1 ≠ cacheKey "u1".data "bonjour".data (some SYSTEM_BASE)),
          ⟨0, "2025-09".data⟩⟩).1 :=
  ⟨(askMini_nonempty defaultAiConfig "2025-09".data "u1".data "bonjour".data
      SYSTEM_BASE (Except.ok ⟨some "  ".data, 5, 5⟩)
      ⟨[], ⟨0, "2025-09".data⟩⟩).1,
   (askMini_nonempty defaultAiConfig "2025-09".data "u1".data "bonjour".data
      SYSTEM_BASE (Except.error "down".data)
      ⟨[(cacheKey "u1".data "bonjour".data (some SYSTEM_BASE), "salut".data)],
        ⟨0, "2025-09".data⟩⟩).2.1 "salut".data (by
          unfold cacheGet
          rw [List.find?_cons_of_pos _ (by simp)]
          rfl) (by decide),
   (askMini_nonempty defaultAiConfig "2025-09".data "u1".data "bonjour".data
      SYSTEM_BASE (Except.error "down".data)
      ⟨[(cacheKey "u1".data "bonjour".data (some SYSTEM_BASE), [])],
        ⟨0, "2025-09".data⟩⟩).2.2 (by
          unfold cacheGet
          rw [List.find?_cons_of_pos _ (by simp)]
          rfl)⟩

theorem toNat_ofNat_valid (n : Nat) (h : n.isValidChar) :
    (Char.ofNat n).toNat = n := by
  simp [Char.ofNat, Char.toNat, h, Char.ofNatAux, UInt32.toNat,
    BitVec.toNat_ofNatLt]

theorem lowerCode_isSpace (v : Nat) :
    isSpaceCode (lowerCode v) = isSpaceCode v := by
  unfold lowerCode isSpaceCode
  split_ifs with h1 h2
  · rw [decide_eq_decide]
    omega
  · rw [decide_eq_decide]
    omega
  · rfl

theorem toNat_jsToLower (c : Char) : (jsToLower c).toNat = lowerCode c.toNat := by
  unfold jsToLower lowerCode
  split_ifs with h1 h2
  · exact toNat_ofNat_valid _ (Or.inl (by omega))
  · exact toNat_ofNat_valid _ (Or.inl (by omega))
  · rw [Char.ofNat_toNat]

theorem isJsSpace_jsToLower (c : Char) :
    isJsSpace (jsToLower c) = isJsSpace c := by
  unfold isJsSpace
  rw [toNat_jsToLower]
  exact lowerCode_isSpace c.toNat

theorem dropWhile_lowerStr (s : Str) :
    (lowerStr s).dropWhile isJsSpace = lowerStr (s.dropWhile isJsSpace) := by
  induction s with
  | nil => rfl
  | cons c rest ih =>
    unfold lowerStr at ih ⊢
    by_cases hc : isJsSpace c
    · rw [List.map_cons,
        List.dropWhile_cons_of_pos (by rw [isJsSpace_jsToLower]; exact hc),
        List.dropWhile_cons_of_pos hc]
      exact ih
    · rw [List.map_cons,
        List.dropWhile_cons_of_neg (by rw [isJsSpace_jsToLower]; simpa using hc),
        List.dropWhile_cons_of_neg (by simpa using hc), List.map_cons]

theorem lowerStr_reverse (s : Str) : lowerStr s.reverse = (lowerStr s).reverse :=
  List.map_reverse jsToLower s

theorem trimLeft_lowerStr (s : Str) :
    trimLeft (lowerStr s) = lowerStr (trimLeft s) :=
  dropWhile_lowerStr s

theorem trimRight_lowerStr (s : Str) :
    trimRight (lowerStr s) = lowerStr (trimRight s) := by
  unfold trimRight
  rw [← lowerStr_reverse, dropWhile_lowerStr, ← lowerStr_reverse]

theorem lowerStr_trim (s : Str) : lowerStr (trim s) = trim (lowerStr s) := by
  unfold trim
  rw [trimLeft_lowerStr, trimRight_lowerStr]

theorem dropWhile_append_all {a b : Str}
    (h : ∀ c ∈ a, isJsSpace c = true) :
    (a ++ b).dropWhile isJsSpace = b.dropWhile isJsSpace := by
  rw [List.dropWhile_append, if_pos]
  rw [List.isEmpty_iff]
  exact List.dropWhile_eq_nil_iff.mpr (fun x hx => h x hx)

theorem trimRight_append_all {t ws : Str}
    (h : ∀ c ∈ ws, isJsSpace c = true) :
    trimRight (t ++ ws) = trimRight t := by
  unfold trimRight
  rw [List.reverse_append,
    dropWhile_append_all (fun c hc => h c (List.mem_reverse.mp hc))]

theorem trim_pad (ws1 ws2 s : Str)
    (h1 : ∀ c ∈ ws1, isJsSpace c = true)
    (h2 : ∀ c ∈ ws2, isJsSpace c = true) :
    trim (ws1 ++ s ++ ws2) = trim s := by
  unfold trim trimLeft
  rw [List.append_assoc, dropWhile_append_all h1]
  by_cases hs : s.dropWhile isJsSpace = []
  · rw [List.dropWhile_append, hs]
    rw [if_pos (List.isEmpty_nil)]
    rw [List.dropWhile_eq_nil_iff.mpr (fun x hx => h2 x hx)]
  · rw [List.dropWhile_append, if_neg (by simpa [List.isEmpty_iff] using hs)]
    exact trimRight_append_all h2

theorem normJs_pad (ws1 ws2 s : Str)
    (h1 : ∀ c ∈ ws1, isJsSpace c = true)
    (h2 : ∀ c ∈ ws2, isJsSpace c = true) :
    normJs (ws1 ++ s ++ ws2) = normJs s := by
  unfold normJs
  rw [trim_pad ws1 ws2 s h1 h2]

theorem normJs_eq_of_lower (s t : Str) (h : lowerStr s = lowerStr t) :
    normJs s = normJs t := by
  unfold normJs
  rw [lowerStr_trim, lowerStr_trim, h]

/-- C9: the cache fingerprint is the SHA-1 digest of the normalized
triple `userId | norm(input) | norm(extra)`.  Distinct caller ids give
distinct hash inputs (so, modulo the hash, two callers never share a
cache entry), and the fingerprint is invariant under leading/trailing
whitespace and letter-case changes of the input text and of the
system-prompt variant. -/
theorem cacheKey_fingerprint (u1 u2 u i i2 e e2 ws1 ws2 ws3 ws4 : Str)
    (hu : u1 ≠ u2)
    (hw1 : ∀ c ∈ ws1, isJsSpace c = true)
    (hw2 : ∀ c ∈ ws2, isJsSpace c = true)
    (hw3 : ∀ c ∈ ws3, isJsSpace c = true)
    (hw4 : ∀ c ∈ ws4, isJsSpace c = true)
    (hi : lowerStr i = lowerStr i2) (he : lowerStr e = lowerStr e2) :
    rawKey u1 i (some e) ≠ rawKey u2 i (some e) ∧
    cacheKey u (ws1 ++ i ++ ws2) (some (ws3 ++ e ++ ws4)) =
      cacheKey u i (some e) ∧
    cacheKey u i2 (some e2) = cacheKey u i (some e) ∧
    cacheKey u i (some e) = sha1Hex (rawKey u i (some e)) := by
  refine ⟨?_, ?_, ?_, rfl⟩
  · intro heq
    unfold rawKey at heq
    exact hu (List.append_cancel_right heq)
  · unfold cacheKey
    congr 1
    unfold rawKey
    simp only [Option.getD_some]
    rw [normJs_pad ws1 ws2 i hw1 hw2, normJs_pad ws3 ws4 e hw3 hw4]
  · unfold cacheKey
    congr 1
    unfold rawKey
    simp only [Option.getD_some]
    rw [normJs_eq_of_lower i2 i hi.symm, normJs_eq_of_lower e2 e he.symm]

/-- C9 witness: callers `a` and `b` feed different strings to the hash
even for identical content, while ` Salut ` vs `Salut` (whitespace) and
`sALUT`/`SYS` vs `Salut`/`sys` (case) collapse to the same
fingerprint. -/
theorem cacheKey_fingerprint_witness :
    rawKey "a".data "Salut".data (some "sys".data) ≠
      rawKey "b".data "Salut".data (some "sys".data) ∧
    cacheKey "a".data (" ".data ++ "Salut".data ++ " ".data)
        (some ("\t".data ++ "sys".data ++ " ".data)) =
      cacheKey "a".data "Salut".data (some "sys".data) ∧
    cacheKey "a".data "sALUT".data (some "SYS".data) =
      cacheKey "a".data "Salut".data (some "sys".data) ∧
    cacheKey "a".data "Salut".data (some "sys".data) =
      sha1Hex (rawKey "a".data "Salut".data (some "sys".data)) :=
  cacheKey_fingerprint "a".data "b".data "a".data "Salut".data "sALUT".data
    "sys".data "SYS".data " ".data " ".data "\t".data " ".data
    (by decide) (by decide) (by decide) (by decide) (by decide)
    (by decide) (by decide)

end Intimaia
